import Mathlib

/-!
Verification of the Zakrom search-orchestration engine.

Shallow embedding of the TypeScript sources:
  * src/lib/traffic-control (circuit breaker, distributed lock release,
    rate limiters, in-flight limiter),
  * src/lib/grid-generator.ts (viewport grid partitioning),
  * src/lib/gateway/google-places.ts (retry loop and grid scan),
  * src/app/actions/get-enriched-places.ts (search orchestration and billing).

JavaScript numbers are modelled as exact rationals or reals; the external
key-value store is modelled as explicit state threaded through each
operation; asynchronous work is modelled by passing each call's outcome
as an oracle argument.
-/

namespace Zakrom

/-! ## Traffic control: distributed lock release (part_002 lines 4-29) -/

/-- The redis string keyspace: each key holds an optional string value. -/
def Store : Type := String → Option String

/-- Embedding of RELEASE_LOCK_LUA: if GET key equals the token, DEL the key,
else do nothing.  The script runs atomically on the store. -/
def luaReleaseLock (s : Store) (key tok : String) : Store :=
  if s key = some tok then Function.update s key none else s

/-- Embedding of releaseLock: evaluates the Lua script inside a try/catch
that swallows every store failure.  The boolean argument says whether the
store raises; on a raise the script has had no effect.  The first component
is the call's outcome: it is always Except.ok, reflecting the catch-all. -/
def releaseLock (s : Store) (key tok : String) (evalFails : Bool) :
    Except String Unit × Store :=
  if evalFails then (Except.ok (), s) else (Except.ok (), luaReleaseLock s key tok)

/-! ## Traffic control: circuit breaker (part_002 lines 45-69) -/

/-- Circuit-breaker slice of the store: the state key holds a value together
with its absolute expiry instant; the failure-counter key is absent (none)
or holds a count. -/
structure CBStore where
  stateVal : Option (String × Nat)
  failures : Option Nat
  deriving DecidableEq, Repr

/-- Reading the state key at instant t: an entry is visible only strictly
before its expiry (redis SET ... EX semantics). -/
def cbGetState (s : CBStore) (t : Nat) : Option String :=
  match s.stateVal with
  | none => none
  | some (v, exp) => if t < exp then some v else none

/-- Result of one withCircuitBreaker call. -/
inductive CBResult where
  | ok (v : Nat)
  | workFailed (e : String)
  | circuitOpen
  deriving DecidableEq, Repr

/-- Output of one withCircuitBreaker call: whether the wrapped work ran,
the call's result, and the store afterwards. -/
structure CBOut where
  invoked : Bool
  result : CBResult
  post : CBStore
  deriving DecidableEq, Repr

/-- Embedding of withCircuitBreaker for one call at instant t.  The wrapped
work's outcome is passed as an oracle value (ok or an error message). -/
def withCircuitBreaker (threshold resetSec : Nat) (s : CBStore) (t : Nat)
    (work : Except String Nat) : CBOut :=
  if cbGetState s t = some "OPEN" then
    { invoked := false, result := CBResult.circuitOpen, post := s }
  else
    match work with
    | Except.ok v => { invoked := true, result := CBResult.ok v, post := s }
    | Except.error e =>
        let f := s.failures.getD 0 + 1
        if threshold ≤ f then
          { invoked := true, result := CBResult.workFailed e,
            post := { stateVal := some ("OPEN", t + resetSec), failures := none } }
        else
          { invoked := true, result := CBResult.workFailed e,
            post := { s with failures := some f } }

/-! ## Traffic control: rate limiters and in-flight limiter (part_002 lines 71-132) -/

/-- JavaScript number as seen by Number.isFinite and comparisons. -/
inductive JSNum where
  | nan
  | posInf
  | negInf
  | num (q : ℚ)
  deriving DecidableEq, Repr

/-- Number.isFinite. -/
def JSNum.isFinite : JSNum → Bool
  | JSNum.num _ => true
  | _ => false

/-- The JavaScript comparison limit <= 0 (false on NaN). -/
def JSNum.le0 : JSNum → Bool
  | JSNum.nan => false
  | JSNum.posInf => false
  | JSNum.negInf => true
  | JSNum.num q => decide (q ≤ 0)

/-- The guard !Number.isFinite(limit) || limit <= 0 shared by both rate
limiters and the in-flight limiter. -/
def guardDisabled (limit : JSNum) : Bool := !limit.isFinite || limit.le0

/-- The JavaScript comparison count <= limit for a natural count. -/
def JSNum.natLe (c : Nat) : JSNum → Bool
  | JSNum.nan => false
  | JSNum.posInf => true
  | JSNum.negInf => false
  | JSNum.num q => decide ((c : ℚ) ≤ q)

/-- Store slice used by the limiters: integer counter keys with optional
expiries, plus sorted-set keys holding (score, member) entries. -/
structure RLStore where
  counters : String → Nat
  expiries : String → Option Nat
  zsets : String → List (Nat × String)

/-- Store commands issued by a limiter call, recorded as a trace. -/
inductive ROp where
  | incr (k : String)
  | decr (k : String)
  | expire (k : String) (sec : Nat)
  | zremrangebyscore (k : String) (lo hi : Int)
  | zadd (k : String) (score : Nat) (member : String)
  | zcard (k : String)
  deriving DecidableEq, Repr

/-- Embedding of rateLimitFixedWindow.  Returns the allowed flag, the store
afterwards, and the trace of store commands issued. -/
def rateLimitFixedWindow (key : String) (limit : JSNum) (windowSec : Nat)
    (s : RLStore) : Bool × RLStore × List ROp :=
  if guardDisabled limit then (true, s, [])
  else
    let c := s.counters key + 1
    let s1 : RLStore := { s with counters := Function.update s.counters key c }
    if c = 1 then
      (limit.natLe c,
       { s1 with expiries := Function.update s1.expiries key (some windowSec) },
       [ROp.incr key, ROp.expire key windowSec])
    else
      (limit.natLe c, s1, [ROp.incr key])

/-- Embedding of rateLimitSlidingWindow at clock instant now (ms) with a
fresh random member tag.  The four MULTI commands run as one atomic batch. -/
def rateLimitSlidingWindow (key : String) (limit : JSNum) (windowSec : Nat)
    (now : Nat) (tag : String) (s : RLStore) : Bool × RLStore × List ROp :=
  if guardDisabled limit then (true, s, [])
  else
    let minScore : Int := (now : Int) - (windowSec : Int) * 1000
    let kept := (s.zsets key).filter (fun e => !decide ((e.1 : Int) ≤ minScore))
    let z2 := kept ++ [(now, tag)]
    let s1 : RLStore :=
      { s with zsets := Function.update s.zsets key z2,
               expiries := Function.update s.expiries key (some (windowSec + 1)) }
    (limit.natLe z2.length, s1,
     [ROp.zremrangebyscore key 0 minScore, ROp.zadd key now tag, ROp.zcard key,
      ROp.expire key (windowSec + 1)])

/-- Output of one withInflightLimiter call: the call's outcome, whether the
wrapped work ran, the store afterwards, and the command trace. -/
structure InflightOut where
  result : Except String Nat
  ranWork : Bool
  post : RLStore
  trace : List ROp

/-- Embedding of withInflightLimiter.  The wrapped work's outcome is passed
as an oracle value; the work itself never touches the limiter's keys. -/
def withInflightLimiter (key : String) (maxConcurrent : JSNum) (ttlSec : Nat)
    (work : Except String Nat) (s : RLStore) : InflightOut :=
  if guardDisabled maxConcurrent then
    { result := work, ranWork := true, post := s, trace := [] }
  else
    let c := s.counters key + 1
    let s1 : RLStore := { s with counters := Function.update s.counters key c }
    let s2 : RLStore :=
      if c = 1 then
        { s1 with expiries := Function.update s1.expiries key (some ttlSec) }
      else s1
    let preOps := if c = 1 then [ROp.incr key, ROp.expire key ttlSec] else [ROp.incr key]
    if !maxConcurrent.natLe c then
      { result := Except.error "Sistem yogun. Lutfen biraz sonra tekrar deneyin.",
        ranWork := false,
        post := { s2 with counters := Function.update s2.counters key (c - 1) },
        trace := preOps ++ [ROp.decr key] }
    else
      { result := work, ranWork := true,
        post := { s2 with counters := Function.update s2.counters key (c - 1) },
        trace := preOps ++ [ROp.decr key] }

/-! ## Grid generator (src/lib/grid-generator.ts) -/

/-- A latitude/longitude pair.  Coordinates are modelled as real numbers. -/
structure LatLng where
  lat : ℝ
  lng : ℝ

/-- A geographic bounding box. -/
structure Viewport where
  northeast : LatLng
  southwest : LatLng

/-- One search sector: a center point and a covering radius in meters. -/
structure GridPoint where
  lat : ℝ
  lng : ℝ
  radius : ℝ

/-- Embedding of GridGenerator.calculateRadius: cell spans are converted to
meters (1 degree latitude is 111000 m, 1 degree longitude is
111000 times cos(baseLat) m), the half diagonal is scaled by 1.1,
rounded up, and capped at 50000 m. -/
noncomputable def calculateRadius (latSize lngSize baseLat : ℝ) : ℝ :=
  let heightMeters := latSize * 111000
  let widthMeters := lngSize * 111000 * Real.cos (baseLat * (Real.pi / 180))
  let diagonal := Real.sqrt (heightMeters ^ 2 + widthMeters ^ 2)
  min 50000 ((⌈(diagonal / 2) * (1.1 : ℝ)⌉ : ℤ) : ℝ)

/-- The clamped grid side length: Math.max(1, Math.min(20, Math.floor(gridSize))). -/
noncomputable def gridSizeClamp (gridSize : ℝ) : ℕ :=
  (max 1 (min 20 ⌊gridSize⌋)).toNat

/-- Embedding of GridGenerator.generateGrid: an NxN list of cell-center
points in row-major order starting from the southwest corner, all carrying
the radius computed once from the common cell spans and the southwest
latitude. -/
noncomputable def generateGrid (v : Viewport) (gridSize : ℝ) : List GridPoint :=
  let size := gridSizeClamp gridSize
  let latSpan := v.northeast.lat - v.southwest.lat
  let lngSpan := v.northeast.lng - v.southwest.lng
  let cellLatSize := latSpan / size
  let cellLngSize := lngSpan / size
  let radiusMeters := calculateRadius cellLatSize cellLngSize v.southwest.lat
  (List.range size).flatMap (fun (row : ℕ) =>
    (List.range size).map (fun (col : ℕ) =>
      { lat := v.southwest.lat + ((row : ℝ) * cellLatSize) + (cellLatSize / 2),
        lng := v.southwest.lng + ((col : ℝ) * cellLngSize) + (cellLngSize / 2),
        radius := radiusMeters }))

/-- Embedding of GridGenerator.generate3x3Grid. -/
noncomputable def generate3x3Grid (v : Viewport) : List GridPoint :=
  generateGrid v 3

/-! ## Places gateway: searchText retry loop (google-places.ts lines 100-166) -/

/-- A normalized provider response: the places of one page (modelled by
their ids) and the optional continuation token. -/
structure GatewayResponse where
  places : List String
  nextPageToken : Option String
  deriving DecidableEq, Repr

/-- Outcome of one attempt's HTTP request, supplied as an oracle indexed by
the attempt number. -/
inductive AttemptOutcome where
  | success (r : GatewayResponse)
  | httpError (status : Nat)
  | abortError
  | otherError (msg : String)
  deriving DecidableEq, Repr

/-- Terminal failure of the retry loop. -/
inductive SearchErr where
  | httpError (status : Nat)
  | abortError
  | otherError (msg : String)
  | maxRetries
  deriving DecidableEq, Repr

/-- The retryable HTTP status codes. -/
def retryableStatuses : List Nat := [429, 500, 502, 503, 504]

/-- Observable events of the retry loop: issuing a request with the
credential at a given pool index, and sleeping for a backoff. -/
inductive TraceEv where
  | call (keyIdx : Nat)
  | slept (ms : Nat)
  deriving DecidableEq, Repr

/-- Embedding of the while loop inside searchText.  The oracle gives each
attempt's outcome; n is the credential-pool size and keyIdx the rotator's
current index (getNextApiKey returns the key at keyIdx, then advances it
modulo n).  Returns the event trace and the loop's result.  maxAttempts
is the source's constant 3. -/
def searchTextLoop (oracle : Nat → AttemptOutcome) (n keyIdx attempt : Nat) :
    List TraceEv × Except SearchErr GatewayResponse :=
  if _h : attempt < 3 then
    let ev := TraceEv.call keyIdx
    let nextIdx := (keyIdx + 1) % n
    match oracle attempt with
    | AttemptOutcome.success r => ([ev], Except.ok r)
    | AttemptOutcome.httpError st =>
        if st ∈ retryableStatuses ∧ attempt < 3 - 1 then
          let rest := searchTextLoop oracle n nextIdx (attempt + 1)
          (ev :: TraceEv.slept (min (1000 * 2 ^ attempt) 4000) :: rest.1, rest.2)
        else ([ev], Except.error (SearchErr.httpError st))
    | AttemptOutcome.abortError =>
        if attempt < 3 - 1 then
          let rest := searchTextLoop oracle n nextIdx (attempt + 1)
          (ev :: rest.1, rest.2)
        else ([ev], Except.error SearchErr.abortError)
    | AttemptOutcome.otherError msg => ([ev], Except.error (SearchErr.otherError msg))
  else ([], Except.error SearchErr.maxRetries)
termination_by 3 - attempt

/-- Embedding of one searchText call, starting at attempt 0 with the
rotator at startIdx. -/
def searchText (oracle : Nat → AttemptOutcome) (n startIdx : Nat) :
    List TraceEv × Except SearchErr GatewayResponse :=
  searchTextLoop oracle n startIdx 0

/-- Whether an attempt outcome triggers a retry of the loop when attempts
remain: a retryable HTTP status or a timeout abort. -/
def retryableOutcome : AttemptOutcome → Bool
  | AttemptOutcome.httpError st => decide (st ∈ retryableStatuses)
  | AttemptOutcome.abortError => true
  | _ => false

/-- The number of attempts the loop makes under a given oracle: a retryable
outcome with budget remaining leads to one more attempt, up to three. -/
def retryCount (oracle : Nat → AttemptOutcome) : Nat :=
  if retryableOutcome (oracle 0) then
    if retryableOutcome (oracle 1) then 3 else 2
  else 1

/-- The event trace the retry policy prescribes for a run of numCalls
attempts: attempt k issues a request with the credential at pool index
(startIdx + k) mod n, and when a further attempt follows, an exponential
backoff sleep of min(1000 * 2 ^ k, 4000) ms separates the two exactly when
attempt k ended in a retryable HTTP response; a timeout abort retries with
no intervening sleep. -/
def expectedTrace (oracle : Nat → AttemptOutcome) (n startIdx numCalls : Nat) :
    List TraceEv :=
  (List.range numCalls).flatMap (fun k =>
    TraceEv.call ((startIdx + k) % n) ::
      (if k + 1 < numCalls then
        (match oracle k with
         | AttemptOutcome.httpError _ => [TraceEv.slept (min (1000 * 2 ^ k) 4000)]
         | _ => [])
       else []))

/-- The loop's result as a function of its final attempt's outcome. -/
def terminalResult (o : AttemptOutcome) : Except SearchErr GatewayResponse :=
  match o with
  | AttemptOutcome.success r => Except.ok r
  | AttemptOutcome.httpError st => Except.error (SearchErr.httpError st)
  | AttemptOutcome.abortError => Except.error SearchErr.abortError
  | AttemptOutcome.otherError m => Except.error (SearchErr.otherError m)

/-- Oracle whose first attempt aborts on timeout and whose second succeeds
with an empty page. -/
def abortOnce : Nat → AttemptOutcome :=
  fun a => if a = 0 then AttemptOutcome.abortError
           else AttemptOutcome.success { places := [], nextPageToken := none }

/-- Oracle whose first attempt is rate-limited (HTTP 429) and whose second
succeeds with one place. -/
def http429Once : Nat → AttemptOutcome :=
  fun a => if a = 0 then AttemptOutcome.httpError 429
           else AttemptOutcome.success { places := ["p"], nextPageToken := none }

/-! ## Places gateway: scanCity (google-places.ts lines 43-98) -/

/-- Embedding of one sector's do-while pagination loop.  The oracle gives
the provider's answer to a searchText call carrying the given page token
(none for the initial request); the loop accumulates places, follows the
continuation token, and stops after maxPages pages or when no token
remains.  Returns the list of tokens passed to the successive calls and
either the accumulated places or the first error raised. -/
def sectorGo (oracle : Option String → Except String GatewayResponse)
    (maxPages : Nat) (token : Option String) (pageCount : Nat)
    (acc : List String) (calls : List (Option String)) :
    List (Option String) × Except String (List String) :=
  match oracle token with
  | Except.error e => (calls ++ [token], Except.error e)
  | Except.ok resp =>
      let acc2 := acc ++ resp.places
      let calls2 := calls ++ [token]
      match resp.nextPageToken with
      | some t =>
          if pageCount + 1 < maxPages then
            sectorGo oracle maxPages (some t) (pageCount + 1) acc2 calls2
          else (calls2, Except.ok acc2)
      | none => (calls2, Except.ok acc2)
termination_by maxPages - pageCount
decreasing_by omega

/-- One sector's full run, starting with no page token. -/
def sectorRun (oracle : Option String → Except String GatewayResponse)
    (maxPages : Nat) : List (Option String) × Except String (List String) :=
  sectorGo oracle maxPages none 0 [] []

/-- The grid points used by scanCity: options.gridSize when truthy selects
an NxN grid, otherwise the 3x3 default. -/
noncomputable def scanGridPoints (v : Viewport) (gridSizeOpt : Option ℝ) :
    List GridPoint :=
  match gridSizeOpt with
  | some g => if g = 0 then generate3x3Grid v else generateGrid v g
  | none => generate3x3Grid v

/-- The per-sector page budget: options.maxPagesPerGrid when truthy,
otherwise the default 3. -/
def scanMaxPages (maxPagesOpt : Option Nat) : Nat :=
  match maxPagesOpt with
  | some m => if m = 0 then 3 else m
  | none => 3

/-- Embedding of scanCity: one sector run per grid point (the oracle is
indexed by the point, reflecting the per-sector location-bias circle built
from that point's center and radius); a sector whose run raises contributes
an empty list; all sector results are flattened in grid order. -/
noncomputable def scanCity
    (oracle : GridPoint → Option String → Except String GatewayResponse)
    (v : Viewport) (gridSizeOpt : Option ℝ) (maxPagesOpt : Option Nat) :
    List String :=
  ((scanGridPoints v gridSizeOpt).map (fun p =>
    match (sectorRun (oracle p) (scanMaxPages maxPagesOpt)).2 with
    | Except.ok l => l
    | Except.error _ => [])).flatten

/-! ## Orchestrator: billing transactions (get-enriched-places.ts lines 421-499) -/

/-- One append-only credit-ledger entry. -/
structure LedgerEntry where
  amount : ℤ
  type : String
  deriving DecidableEq, Repr

/-- The billing-relevant database state of one user: the credit balance,
the credit-ledger entries (most recent first) and the number of
search-history records. -/
structure BillingState where
  credits : ℤ
  ledger : List LedgerEntry
  history : Nat
  deriving DecidableEq, Repr

/-- Embedding of the new-search billing transaction (lines 426-460): an
updateMany conditioned on credits being at least the cost, the ledger
insert, and (for new searches only, not paid pagination) a search-history
insert, committed as one unit; when the conditional update matches no row
the transaction throws and has no effect. -/
def billingTxNewSearch (required : ℤ) (deepSearch isPaidPagination : Bool)
    (s : BillingState) : Except String BillingState :=
  if required ≤ s.credits then
    Except.ok
      { credits := s.credits - required,
        ledger := { amount := -required,
                    type := if deepSearch then "DEEP_SEARCH"
                            else if isPaidPagination then "PAGE_LOAD" else "SEARCH" }
                  :: s.ledger,
        history := if isPaidPagination then s.history else s.history + 1 }
  else Except.error "Yetersiz bakiye."

/-- Embedding of the legacy provider-token billing transaction (lines
483-499): an updateMany with no credit condition decrements one credit and
inserts the ledger entry; no history record is written. -/
def billingTxLegacy (s : BillingState) : BillingState :=
  { credits := s.credits - 1,
    ledger := { amount := -1, type := "PAGE_LOAD" } :: s.ledger,
    history := s.history }

/-- The entry pre-check (line 196) as seen by the legacy path, where the
required cost is 1: it merely reads the balance, committing nothing. -/
def legacyPrecheckPasses (s : BillingState) : Bool :=
  decide (1 ≤ s.credits)

/-! ## Orchestrator: standard search pagination (get-enriched-places.ts lines 383-418) -/

/-- Result of the standard (non-deep, no initial token) search path. -/
structure StdResult where
  all : List String
  limited : List String
  providerToken : Option String
  nextToken : Option String
  deriving DecidableEq, Repr

/-- Embedding of the standard-search while loop.  The provider oracle gives
the response to the k-th fetch; the loop accumulates pages while fetches
remain under MAX_FETCHES and fewer than pageSize results are accumulated,
and stops early when the provider returns no continuation token. -/
def stdGo (provider : Nat → GatewayResponse) (pageSize maxFetches : Nat)
    (fetchCount : Nat) (allPlaces : List String) (currentToken : Option String) :
    List String × Option String :=
  if _h : fetchCount < maxFetches ∧ allPlaces.length < pageSize then
    let r := provider fetchCount
    let all2 := allPlaces ++ r.places
    match r.nextPageToken with
    | none => (all2, none)
    | some t => stdGo provider pageSize maxFetches (fetchCount + 1) all2 (some t)
  else (allPlaces, currentToken)
termination_by maxFetches - fetchCount
decreasing_by omega

/-- Embedding of the standard search path: MAX_FETCHES is
ceil(pageSize / 20) + 1, the loop runs from an empty accumulator, the
returned places are capped at pageSize, and the next-page token is derived
from the loop's final provider token and result count. -/
def standardSearch (provider : Nat → GatewayResponse) (pageSize : Nat) : StdResult :=
  let maxFetches := (pageSize + 19) / 20 + 1
  let run := stdGo provider pageSize maxFetches 0 [] none
  let allPlaces := run.1
  let currentToken := run.2
  let limited := allPlaces.take pageSize
  let nextToken :=
    match currentToken with
    | none => if 60 ≤ allPlaces.length then some "google_limit_reached" else none
    | some t => if limited.length < allPlaces.length then some "plan_limit_reached" else some t
  { all := allPlaces, limited := limited, providerToken := currentToken,
    nextToken := nextToken }

/-- The continuation policy exactly as the claim states it: no token and
fewer than 60 results means exhausted, no token and at least 60 results
means google_limit_reached, a token with the plan cap already reached
(at least cap results accumulated) means plan_limit_reached, otherwise
the raw token. -/
def claimTokenPolicy (providerToken : Option String) (count pageSize : Nat) :
    Option String :=
  match providerToken with
  | none => if count < 60 then none else some "google_limit_reached"
  | some t => if pageSize ≤ count then some "plan_limit_reached" else some t

/-! ## Orchestrator: deep-search initiation (get-enriched-places.ts lines 186-381) -/

/-- Recursion of the first-occurrence dedup filter, carrying the set of
already-seen place ids. -/
def firstDedupGo (seen : List String) : List String → List String
  | [] => []
  | p :: ps =>
      if p ∈ seen then firstDedupGo seen ps
      else p :: firstDedupGo (p :: seen) ps

/-- First-occurrence deduplication by place id, as the seen-set filter in
the grid branch (lines 321-327). -/
def firstDedup (l : List String) : List String := firstDedupGo [] l

/-- Result of the deep-search initiation path. -/
structure DeepInitResult where
  cachedIds : List String
  firstPage : List String
  nextToken : Option String
  post : BillingState
  deriving DecidableEq, Repr

/-- The effective deep page size: the configured value clamped to
[10, 500] (line 202). -/
def deepPageSize (configured : Nat) : Nat :=
  max 10 (min configured 500)

/-- Embedding of the deep-search initiation path (deepSearch true, no
initial page token).  raw is the flat list of place ids produced either by
the grid scan (viewportFound true, then deduplicated first-occurrence) or
by the single fallback query (viewportFound false); cfgMaxPages and
cfgPageSize are the DEEP_SEARCH_MAX_PAGES and DEEP_SEARCH_PAGE_SIZE
configuration values.  The path pre-checks the balance against the cost of
10, caps the result list by the credit-aware bound, caches the id list,
returns the first page with its continuation token, and commits the
billing transaction. -/
def executeDeepInit (s : BillingState) (cfgMaxPages cfgPageSize : Nat)
    (viewportFound : Bool) (raw : List String) :
    Except String DeepInitResult :=
  if s.credits < 10 then
    Except.error "Yetersiz bakiye. Bu islem icin 10 kredi gerekiyor."
  else
    let pSize := deepPageSize cfgPageSize
    let remainingCredits : Nat := (s.credits - 10).toNat
    let allPlaces := if viewportFound then firstDedup raw else raw
    let maxPagesByCredits := min cfgMaxPages (max 1 (1 + remainingCredits))
    let maxResultsByCredits := maxPagesByCredits * pSize
    let capped := if allPlaces.length > maxResultsByCredits
                  then allPlaces.take maxResultsByCredits else allPlaces
    let limitedPlaces := capped.take pSize
    let nextToken := if capped.length > pSize
                     then some ("deep:" ++ toString pSize) else none
    (billingTxNewSearch 10 true false s).map (fun post =>
      { cachedIds := capped, firstPage := limitedPlaces,
        nextToken := nextToken, post := post })

/-! ## Concrete states and oracles used by witnesses and counterexamples -/

/-- A billing state with fifteen credits, used by the deep-init witness. -/
def deepS0 : BillingState := { credits := 15, ledger := [], history := 0 }

/-- A raw scan result with a duplicate id, used by the deep-init witness. -/
def deepRaw0 : List String := ["a", "b", "a"]

/-- The deep-init result computed from deepS0 and deepRaw0. -/
def deepR0 : DeepInitResult :=
  { cachedIds := ["a", "b"], firstPage := ["a", "b"], nextToken := none,
    post := { credits := 5, ledger := [{ amount := -10, type := "DEEP_SEARCH" }],
              history := 1 } }

/-- Provider oracle whose single page carries one place and no token. -/
def provEnd : Nat → GatewayResponse :=
  fun _ => { places := ["a"], nextPageToken := none }

/-- Sector oracle whose every request raises, used by the scan witness. -/
def failOracle : GridPoint → Option String → Except String GatewayResponse :=
  fun _ _ => Except.error "sector down"

/-- A degenerate zero-span viewport at the origin. -/
noncomputable def v0 : Viewport :=
  { northeast := { lat := 0, lng := 0 }, southwest := { lat := 0, lng := 0 } }

/-- The single grid point of the 1x1 grid over v0. -/
noncomputable def gridPt0 : GridPoint :=
  { lat := 0, lng := 0, radius := calculateRadius 0 0 0 }

/-! ## Theorems -/

/-- C8: releaseLock(key, token) deletes the lock key if and only if the
stored value equals the caller's token; on a token mismatch or an absent
key the store is unchanged; and releaseLock never throws, whatever the
store does. -/
theorem releaseLock_compare_and_delete (s : Store) (key tok : String)
    (evalFails : Bool) :
    (releaseLock s key tok evalFails).1 = Except.ok () ∧
    (evalFails = false → s key = some tok →
      (releaseLock s key tok evalFails).2 key = none ∧
      ∀ k, k ≠ key → (releaseLock s key tok evalFails).2 k = s k) ∧
    (evalFails = false → s key ≠ some tok →
      (releaseLock s key tok evalFails).2 = s) ∧
    (evalFails = true → (releaseLock s key tok evalFails).2 = s) := by
  refine ⟨?_, ?_, ?_, ?_⟩
  · cases evalFails <;> simp [releaseLock]
  · intro hf hm
    subst hf
    refine ⟨?_, ?_⟩
    · simp [releaseLock, luaReleaseLock, hm]
    · intro k hk
      simp [releaseLock, luaReleaseLock, hm, Function.update_noteq hk]
  · intro hf hm
    subst hf
    simp [releaseLock, luaReleaseLock, hm]
  · intro hf
    subst hf
    simp [releaseLock]

/-- Concrete single-key store used to witness the release semantics. -/
def lockStore0 : Store := fun k => if k = "lock" then some "t1" else none

/-- Witness for C8 at a concrete store holding token t1 under key lock. -/
theorem releaseLock_compare_and_delete_witness :
    (releaseLock lockStore0 "lock" "t1" false).1 = Except.ok () ∧
    (releaseLock lockStore0 "lock" "t1" false).2 "lock" = none := by
  have h := releaseLock_compare_and_delete lockStore0 "lock" "t1" false
  exact ⟨h.1, (h.2.1 rfl (by decide)).1⟩

/-- C9: for every limit value that is non-finite or at most 0, the guard is
disabled rather than always-denying: both rate limiters return allowed
without touching the store (no commands issued, store unchanged), and the
in-flight limiter runs the work directly without incrementing any
counter. -/
theorem limiters_disabled_guard (limit : JSNum)
    (h : limit.isFinite = false ∨ limit.le0 = true) :
    ∀ (key tag : String) (windowSec ttlSec now : Nat) (s : RLStore)
      (work : Except String Nat),
      rateLimitFixedWindow key limit windowSec s = (true, s, []) ∧
      rateLimitSlidingWindow key limit windowSec now tag s = (true, s, []) ∧
      withInflightLimiter key limit ttlSec work s =
        { result := work, ranWork := true, post := s, trace := [] } := by
  intro key tag windowSec ttlSec now s work
  have hg : guardDisabled limit = true := by
    rcases h with h | h <;> simp [guardDisabled, h]
  refine ⟨?_, ?_, ?_⟩ <;>
    simp [rateLimitFixedWindow, rateLimitSlidingWindow, withInflightLimiter, hg]

/-- Concrete empty limiter store used in witnesses. -/
def rlStore0 : RLStore :=
  { counters := fun _ => 0, expiries := fun _ => none, zsets := fun _ => [] }

/-- Witness for C9 at the limit NaN on a concrete empty store. -/
theorem limiters_disabled_guard_witness :
    rateLimitFixedWindow "k" JSNum.nan 60 rlStore0 = (true, rlStore0, []) ∧
    withInflightLimiter "k" JSNum.nan 30 (Except.ok 7) rlStore0 =
      { result := Except.ok 7, ranWork := true, post := rlStore0, trace := [] } := by
  have h := limiters_disabled_guard JSNum.nan (Or.inl rfl) "k" "tag" 60 30 0
      rlStore0 (Except.ok 7)
  exact ⟨h.1, h.2.2⟩

/-- C7: withCircuitBreaker never invokes the wrapped work while the state
key holds OPEN (the call fails fast); a recorded failure reaching the
threshold sets the state to OPEN with expiry resetTimeoutSec and deletes
the failure counter, the breaker stays open strictly before the expiry
instant and admits calls from the expiry instant on; a sub-threshold
failure only increments the counter; a successful call leaves state and
counter untouched. -/
theorem withCircuitBreaker_policy (threshold resetSec : Nat) (s : CBStore)
    (t : Nat) (work : Except String Nat) :
    (cbGetState s t = some "OPEN" →
      withCircuitBreaker threshold resetSec s t work =
        { invoked := false, result := CBResult.circuitOpen, post := s }) ∧
    (∀ v, work = Except.ok v → cbGetState s t ≠ some "OPEN" →
      withCircuitBreaker threshold resetSec s t work =
        { invoked := true, result := CBResult.ok v, post := s }) ∧
    (∀ e, work = Except.error e → cbGetState s t ≠ some "OPEN" →
      threshold ≤ s.failures.getD 0 + 1 →
      (withCircuitBreaker threshold resetSec s t work =
        { invoked := true, result := CBResult.workFailed e,
          post := { stateVal := some ("OPEN", t + resetSec), failures := none } }) ∧
      (∀ u, u < t + resetSec →
        cbGetState (withCircuitBreaker threshold resetSec s t work).post u =
          some "OPEN") ∧
      (∀ u, t + resetSec ≤ u →
        cbGetState (withCircuitBreaker threshold resetSec s t work).post u = none ∧
        ∀ w2, (withCircuitBreaker threshold resetSec
                (withCircuitBreaker threshold resetSec s t work).post u w2).invoked
              = true)) ∧
    (∀ e, work = Except.error e → cbGetState s t ≠ some "OPEN" →
      s.failures.getD 0 + 1 < threshold →
      withCircuitBreaker threshold resetSec s t work =
        { invoked := true, result := CBResult.workFailed e,
          post := { s with failures := some (s.failures.getD 0 + 1) } }) := by
  refine ⟨?_, ?_, ?_, ?_⟩
  · intro hopen
    simp [withCircuitBreaker, hopen]
  · intro v hw hclosed
    subst hw
    simp [withCircuitBreaker, hclosed]
  · intro e hw hclosed hth
    subst hw
    have hmain : withCircuitBreaker threshold resetSec s t (Except.error e) =
        { invoked := true, result := CBResult.workFailed e,
          post := { stateVal := some ("OPEN", t + resetSec), failures := none } } := by
      simp [withCircuitBreaker, hclosed, hth]
    refine ⟨hmain, ?_, ?_⟩
    · intro u hu
      simp [hmain, cbGetState, hu]
    · intro u hu
      have hgone : cbGetState (withCircuitBreaker threshold resetSec s t
          (Except.error e)).post u = none := by
        simp [hmain, cbGetState]
        omega
      refine ⟨hgone, ?_⟩
      intro w2
      rw [hmain] at hgone ⊢
      cases w2 <;> simp [withCircuitBreaker, hgone, apply_ite]
  · intro e hw hclosed hth
    subst hw
    have : ¬ threshold ≤ s.failures.getD 0 + 1 := by omega
    simp [withCircuitBreaker, hclosed, this]

/-- Witness for C7: with threshold 2, a second failure at instant 100 opens
the breaker until instant 160, fails fast at 159, and admits calls at 160. -/
theorem withCircuitBreaker_policy_witness :
    (withCircuitBreaker 2 60 { stateVal := none, failures := some 1 } 100
        (Except.error "boom") =
      { invoked := true, result := CBResult.workFailed "boom",
        post := { stateVal := some ("OPEN", 160), failures := none } }) ∧
    cbGetState { stateVal := some ("OPEN", 160), failures := none } 159 =
      some "OPEN" ∧
    cbGetState { stateVal := some ("OPEN", 160), failures := none } 160 = none := by
  have h := (withCircuitBreaker_policy 2 60
      { stateVal := none, failures := some 1 } 100 (Except.error "boom")).2.2.1
      "boom" rfl (by decide) (by decide)
  exact ⟨h.1, by decide, by decide⟩

/-- C1 counterexample: the legacy provider-token billing transaction
decrements unconditionally, so two concurrent legacy page loads whose
pre-checks both read the same one-credit balance drive the balance to -1;
even a single legacy transaction started from a zero balance yields -1. -/
theorem billing_legacy_overdraw_cex :
    legacyPrecheckPasses { credits := 1, ledger := [], history := 0 } = true ∧
    (billingTxLegacy (billingTxLegacy
      { credits := 1, ledger := [], history := 0 })).credits = -1 ∧
    (billingTxLegacy { credits := 0, ledger := [], history := 0 }).credits = -1 ∧
    ((-1 : ℤ) < 0) := by
  refine ⟨by decide, by decide, by decide, by decide⟩

/-- C1 amended: the new-search billing transaction commits the decrement,
the ledger entry and (for new searches only, not paid pagination) the
search-history record atomically, and the decrement is conditional on the
balance being at least the cost, so that transaction never drives the
balance negative; the legacy provider-token transaction commits the
decrement and its ledger entry atomically but decrements unconditionally. -/
theorem billing_tx_policy (s : BillingState) (required : ℤ) (ds ip : Bool) :
    (∀ s2, billingTxNewSearch required ds ip s = Except.ok s2 →
      required ≤ s.credits ∧
      s2.credits = s.credits - required ∧
      s2.ledger = { amount := -required,
                    type := if ds then "DEEP_SEARCH"
                            else if ip then "PAGE_LOAD" else "SEARCH" } :: s.ledger ∧
      (ip = false → s2.history = s.history + 1) ∧
      (ip = true → s2.history = s.history)) ∧
    (s.credits < required →
      billingTxNewSearch required ds ip s = Except.error "Yetersiz bakiye.") ∧
    (∀ s2, billingTxNewSearch required ds ip s = Except.ok s2 → 0 ≤ s2.credits) ∧
    (billingTxLegacy s =
      { credits := s.credits - 1,
        ledger := { amount := -1, type := "PAGE_LOAD" } :: s.ledger,
        history := s.history }) := by
  refine ⟨?_, ?_, ?_, rfl⟩
  · intro s2 h
    by_cases hc : required ≤ s.credits
    · simp only [billingTxNewSearch, if_pos hc, Except.ok.injEq] at h
      subst h
      refine ⟨hc, rfl, rfl, ?_, ?_⟩ <;> intro hip <;> simp [hip]
    · simp [billingTxNewSearch, if_neg hc] at h
  · intro hlt
    have : ¬ required ≤ s.credits := by omega
    simp [billingTxNewSearch, this]
  · intro s2 h
    by_cases hc : required ≤ s.credits
    · simp only [billingTxNewSearch, if_pos hc, Except.ok.injEq] at h
      subst h
      simp
      omega
    · simp [billingTxNewSearch, if_neg hc] at h

/-- Post-state of the witness billing transaction. -/
def billingPost0 : BillingState :=
  { credits := 4, ledger := [{ amount := -1, type := "SEARCH" }], history := 1 }

/-- Witness for C1's amended theorem: a one-credit standard search from a
balance of 5 commits atomically and leaves a non-negative balance. -/
theorem billing_tx_policy_witness :
    billingTxNewSearch 1 false false { credits := 5, ledger := [], history := 0 } =
      Except.ok billingPost0 ∧
    (0 : ℤ) ≤ billingPost0.credits := by
  have h := (billing_tx_policy { credits := 5, ledger := [], history := 0 }
      1 false false).2.2.1
  exact ⟨rfl, h billingPost0 rfl⟩

/-- Provider oracle answering every fetch with one full page of 20 results
and a live continuation token. -/
def provCex : Nat → GatewayResponse :=
  fun _ => { places := List.replicate 20 "x", nextPageToken := some "t" }

/-- C3 counterexample: with plan cap 20, one provider page of 20 results
carrying a live token makes the plan cap exactly reached; the code returns
the raw token while the claimed policy demands plan_limit_reached. -/
theorem standard_token_cap_cex :
    (standardSearch provCex 20).providerToken = some "t" ∧
    (standardSearch provCex 20).all.length = 20 ∧
    (standardSearch provCex 20).nextToken = some "t" ∧
    claimTokenPolicy (some "t") 20 20 = some "plan_limit_reached" ∧
    (standardSearch provCex 20).nextToken ≠ claimTokenPolicy (some "t") 20 20 := by
  have hrun : stdGo provCex 20 2 0 [] none = (List.replicate 20 "x", some "t") := by
    rw [stdGo]
    norm_num [provCex]
    rw [stdGo]
    norm_num
  refine ⟨?_, ?_, ?_, by decide, ?_⟩ <;>
    simp [standardSearch, hrun, claimTokenPolicy]

/-- C3 amended: for every standard search the returned nextPageToken
follows this total policy: no provider token and fewer than 60 accumulated
results means undefined; no token and at least 60 results means
google_limit_reached; a token with strictly more results accumulated than
the plan cap (the cap strictly exceeded) means plan_limit_reached; a token
with at most the cap accumulated (including exactly the cap) is passed
through raw. -/
theorem standardSearch_token_policy (provider : Nat → GatewayResponse)
    (pageSize : Nat) :
    ((standardSearch provider pageSize).providerToken = none →
      (standardSearch provider pageSize).all.length < 60 →
      (standardSearch provider pageSize).nextToken = none) ∧
    ((standardSearch provider pageSize).providerToken = none →
      60 ≤ (standardSearch provider pageSize).all.length →
      (standardSearch provider pageSize).nextToken = some "google_limit_reached") ∧
    (∀ t, (standardSearch provider pageSize).providerToken = some t →
      pageSize < (standardSearch provider pageSize).all.length →
      (standardSearch provider pageSize).nextToken = some "plan_limit_reached") ∧
    (∀ t, (standardSearch provider pageSize).providerToken = some t →
      (standardSearch provider pageSize).all.length ≤ pageSize →
      (standardSearch provider pageSize).nextToken = some t) := by
  rcases h : stdGo provider pageSize ((pageSize + 19) / 20 + 1) 0 [] none
    with ⟨all, tok⟩
  refine ⟨?_, ?_, ?_, ?_⟩
  · intro h1 h2
    simp only [standardSearch, h] at h1 h2 ⊢
    subst h1
    simp [show ¬ (60 ≤ all.length) from by omega]
  · intro h1 h2
    simp only [standardSearch, h] at h1 h2 ⊢
    subst h1
    simp [h2]
  · intro t h1 h2
    simp only [standardSearch, h] at h1 h2 ⊢
    subst h1
    have hc : (all.take pageSize).length < all.length := by
      simp only [List.length_take]
      omega
    show (if (all.take pageSize).length < all.length
          then some "plan_limit_reached" else some t) = some "plan_limit_reached"
    rw [if_pos hc]
  · intro t h1 h2
    simp only [standardSearch, h] at h1 h2 ⊢
    subst h1
    have hc : ¬ (all.take pageSize).length < all.length := by
      simp only [List.length_take]
      omega
    show (if (all.take pageSize).length < all.length
          then some "plan_limit_reached" else some t) = some t
    rw [if_neg hc]

/-- Witness for C3's amended theorem: a provider that ends after one short
page yields an exhausted (undefined) next-page token. -/
theorem standardSearch_token_policy_witness :
    (standardSearch provEnd 20).nextToken = none := by
  have hrun : stdGo provEnd 20 2 0 [] none = (["a"], none) := by
    rw [stdGo]
    norm_num [provEnd]
  exact (standardSearch_token_policy provEnd 20).1
    (by simp [standardSearch, hrun]) (by simp [standardSearch, hrun])

/-- Elements produced by the dedup helper avoid the seen accumulator. -/
theorem firstDedup_go_not_seen (l : List String) :
    ∀ seen, ∀ x ∈ firstDedupGo seen l, x ∉ seen := by
  induction l with
  | nil => intro seen x hx; simp [firstDedupGo] at hx
  | cons p ps ih =>
      intro seen x hx
      by_cases hp : p ∈ seen
      · simp only [firstDedupGo, if_pos hp] at hx
        exact ih seen x hx
      · simp only [firstDedupGo, if_neg hp, List.mem_cons] at hx
        rcases hx with rfl | hx
        · exact hp
        · intro hxseen
          exact (ih (p :: seen) x hx) (List.mem_cons_of_mem p hxseen)

/-- The first-occurrence dedup filter returns a duplicate-free list. -/
theorem firstDedup_nodup (l : List String) : (firstDedup l).Nodup := by
  suffices h : ∀ seen, (firstDedupGo seen l).Nodup from h []
  induction l with
  | nil => intro seen; simp [firstDedupGo]
  | cons p ps ih =>
      intro seen
      by_cases hp : p ∈ seen
      · simpa only [firstDedupGo, if_pos hp] using ih seen
      · simp only [firstDedupGo, if_neg hp, List.nodup_cons]
        refine ⟨?_, ih (p :: seen)⟩
        intro hmem
        exact (firstDedup_go_not_seen ps (p :: seen) p hmem) (List.mem_cons_self p seen)

/-- C4: deep-search initiation with a found viewport charges exactly 10
credits (atomically with one -10 DEEP_SEARCH ledger entry and one history
record), caches a deduplicated id list of length at most
min(configuredMaxPages, 1 + remainingCredits) times the deep page size,
returns only the first page of at most deepPageSize places, and returns
the continuation token deep:pageSize exactly when more results remain
beyond the first page. -/
theorem deep_init_spec (s : BillingState) (cfgMaxPages cfgPageSize : Nat)
    (raw : List String) (h10 : 10 ≤ s.credits) :
    (executeDeepInit s cfgMaxPages cfgPageSize true raw).isOk = true ∧
    ∀ r, executeDeepInit s cfgMaxPages cfgPageSize true raw = Except.ok r →
      r.post.credits = s.credits - 10 ∧
      r.post.ledger = { amount := -10, type := "DEEP_SEARCH" } :: s.ledger ∧
      r.post.history = s.history + 1 ∧
      r.cachedIds.Nodup ∧
      r.cachedIds.length ≤
        min cfgMaxPages (1 + (s.credits - 10).toNat) * deepPageSize cfgPageSize ∧
      r.firstPage = r.cachedIds.take (deepPageSize cfgPageSize) ∧
      r.firstPage.length ≤ deepPageSize cfgPageSize ∧
      (r.nextToken = some ("deep:" ++ toString (deepPageSize cfgPageSize)) ↔
        deepPageSize cfgPageSize < r.cachedIds.length) := by
  have hnot : ¬ s.credits < 10 := by omega
  have htx : billingTxNewSearch 10 true false s =
      Except.ok { credits := s.credits - 10,
                  ledger := { amount := -10, type := "DEEP_SEARCH" } :: s.ledger,
                  history := s.history + 1 } := by
    simp [billingTxNewSearch, h10]
  have hmax : max 1 (1 + (s.credits - 10).toNat) = 1 + (s.credits - 10).toNat := by
    omega
  constructor
  · simp [executeDeepInit, hnot, htx, Except.isOk, Except.toBool, Except.map]
  · intro r hr
    simp only [executeDeepInit, if_neg hnot, htx, Except.map, Except.ok.injEq] at hr
    subst hr
    simp only [hmax, if_true]
    set P := deepPageSize cfgPageSize with hP
    set B := min cfgMaxPages (1 + (s.credits - 10).toNat) * P with hB
    set capped := if (firstDedup raw).length > B
                  then (firstDedup raw).take B else firstDedup raw with hcap
    have hnodup : capped.Nodup := by
      rw [hcap]
      by_cases hc : (firstDedup raw).length > B
      · rw [if_pos hc]
        exact List.Nodup.sublist (List.take_sublist _ _) (firstDedup_nodup raw)
      · rw [if_neg hc]
        exact firstDedup_nodup raw
    have hlen : capped.length ≤ B := by
      rw [hcap]
      by_cases hc : (firstDedup raw).length > B
      · rw [if_pos hc]
        exact List.length_take_le _ _
      · rw [if_neg hc]
        omega
    refine ⟨trivial, trivial, trivial, hnodup, hlen, trivial,
      List.length_take_le _ _, ?_⟩
    by_cases hc : capped.length > P
    · simp [hc]
    · simp only [if_neg hc]
      constructor
      · intro h
        exact absurd h (by simp)
      · intro h
        exact absurd h hc

/-- Witness for C4: from 15 credits with a duplicate-bearing scan result,
deep initiation succeeds, charges down to 5 credits and caches the
deduplicated id list. -/
theorem deep_init_spec_witness :
    executeDeepInit deepS0 200 60 true deepRaw0 = Except.ok deepR0 ∧
    deepR0.post.credits = deepS0.credits - 10 ∧
    deepR0.cachedIds.Nodup := by
  have h := (deep_init_spec deepS0 200 60 deepRaw0 (by decide)).2 deepR0 rfl
  exact ⟨rfl, h.1, h.2.2.2.1⟩

/-- Length of a row-major block built from an n-row, m-column generator. -/
theorem length_rowBlock (n m : Nat) (f : Nat → Nat → GridPoint) :
    ((List.range n).flatMap (fun r => (List.range m).map (f r))).length = n * m := by
  induction n with
  | zero => simp
  | succ k ih =>
      rw [List.range_succ, List.flatMap_append, List.length_append, ih]
      simp [Nat.succ_mul]

/-- Element access in a row-major block: index r * m + c holds f r c. -/
theorem getElem?_rowBlock (n m r c : Nat) (f : Nat → Nat → GridPoint)
    (hr : r < n) (hc : c < m) :
    ((List.range n).flatMap (fun i => (List.range m).map (f i)))[r * m + c]? =
      some (f r c) := by
  induction n with
  | zero => omega
  | succ k ih =>
      rw [List.range_succ, List.flatMap_append]
      by_cases h : r < k
      · have hlt : r * m + c <
            ((List.range k).flatMap fun i => List.map (f i) (List.range m)).length := by
          rw [length_rowBlock]
          calc r * m + c < r * m + m := by omega
            _ = (r + 1) * m := by ring
            _ ≤ k * m := Nat.mul_le_mul_right m (by omega)
        rw [List.getElem?_append_left hlt]
        exact ih h
      · have hrk : r = k := by omega
        subst hrk
        have hge : ((List.range r).flatMap fun i =>
            List.map (f i) (List.range m)).length ≤ r * m + c := by
          rw [length_rowBlock]
          omega
        rw [List.getElem?_append_right hge, length_rowBlock]
        have hidx : r * m + c - r * m = c := by omega
        rw [hidx]
        simp only [List.flatMap_cons, List.flatMap_nil, List.append_nil,
          List.getElem?_map, List.getElem?_range hc, Option.map_some']

/-- C5: generateGrid returns exactly size-squared points where size is
floor(gridSize) clamped to [1, 20], ordered row-major from the southwest
corner with each point center-aligned in its cell (southwest plus
(index + 0.5) times the cell span per axis), every radius equal to the
calculateRadius formula over the common cell spans and the southwest
latitude, no radius above 50000 m, and zero-radius points on a zero-span
viewport. -/
theorem generateGrid_spec (v : Viewport) (g : ℝ) :
    1 ≤ gridSizeClamp g ∧ gridSizeClamp g ≤ 20 ∧
    (generateGrid v g).length = gridSizeClamp g * gridSizeClamp g ∧
    (∀ row col, row < gridSizeClamp g → col < gridSizeClamp g →
      (generateGrid v g)[row * gridSizeClamp g + col]? = some
        { lat := v.southwest.lat + ((row : ℝ) + 1 / 2) *
            ((v.northeast.lat - v.southwest.lat) / (gridSizeClamp g : ℝ)),
          lng := v.southwest.lng + ((col : ℝ) + 1 / 2) *
            ((v.northeast.lng - v.southwest.lng) / (gridSizeClamp g : ℝ)),
          radius := calculateRadius
            ((v.northeast.lat - v.southwest.lat) / (gridSizeClamp g : ℝ))
            ((v.northeast.lng - v.southwest.lng) / (gridSizeClamp g : ℝ))
            v.southwest.lat }) ∧
    (∀ p ∈ generateGrid v g, p.radius ≤ 50000) ∧
    (v.northeast.lat = v.southwest.lat → v.northeast.lng = v.southwest.lng →
      ∀ p ∈ generateGrid v g, p.radius = 0) := by
  refine ⟨?_, ?_, ?_, ?_, ?_, ?_⟩
  · simp only [gridSizeClamp]
    omega
  · simp only [gridSizeClamp]
    omega
  · simpa only [generateGrid] using length_rowBlock _ _ _
  · intro row col hr hc
    simp only [generateGrid]
    rw [getElem?_rowBlock _ _ _ _ _ hr hc]
    simp only [Option.some.injEq, GridPoint.mk.injEq]
    refine ⟨by ring, by ring, trivial⟩
  · intro p hp
    simp only [generateGrid, List.mem_flatMap, List.mem_map] at hp
    obtain ⟨row, _, col, _, rfl⟩ := hp
    simp only [calculateRadius]
    exact min_le_left _ _
  · intro h1 h2 p hp
    simp only [generateGrid, List.mem_flatMap, List.mem_map] at hp
    obtain ⟨row, _, col, _, rfl⟩ := hp
    simp only [h1, h2, sub_self, zero_div]
    simp [calculateRadius, Real.sqrt_zero]

/-- C10: every point of one generateGrid call carries the identical radius,
computed once from the common cell spans with the viewport's southwest
latitude as the longitude-to-meters base. -/
theorem generateGrid_uniform_radius (v : Viewport) (g : ℝ) :
    (∀ p ∈ generateGrid v g, p.radius = calculateRadius
        ((v.northeast.lat - v.southwest.lat) / (gridSizeClamp g : ℝ))
        ((v.northeast.lng - v.southwest.lng) / (gridSizeClamp g : ℝ))
        v.southwest.lat) ∧
    (∀ p ∈ generateGrid v g, ∀ q ∈ generateGrid v g, p.radius = q.radius) := by
  have huni : ∀ p ∈ generateGrid v g, p.radius = calculateRadius
      ((v.northeast.lat - v.southwest.lat) / (gridSizeClamp g : ℝ))
      ((v.northeast.lng - v.southwest.lng) / (gridSizeClamp g : ℝ))
      v.southwest.lat := by
    intro p hp
    simp only [generateGrid, List.mem_flatMap, List.mem_map] at hp
    obtain ⟨row, _, col, _, rfl⟩ := hp
    rfl
  refine ⟨huni, ?_⟩
  intro p hp q hq
  rw [huni p hp, huni q hq]

/-- The 1x1 grid over the zero-span viewport consists of the single origin
point. -/
theorem gridPt0_mem : gridPt0 ∈ generateGrid v0 1 := by
  have hs : gridSizeClamp 1 = 1 := by norm_num [gridSizeClamp]
  simp [generateGrid, hs, v0, gridPt0, List.range_succ]

/-- Witness for C5 on the zero-span viewport with grid size 1: one point,
and its radius is zero. -/
theorem generateGrid_spec_witness :
    (generateGrid v0 1).length = 1 ∧ gridPt0.radius = 0 := by
  have h := generateGrid_spec v0 1
  have hs : gridSizeClamp 1 = 1 := by norm_num [gridSizeClamp]
  constructor
  · rw [h.2.2.1, hs]
  · exact h.2.2.2.2.2 rfl rfl gridPt0 gridPt0_mem

/-- Witness for C10: the origin point's radius equals the once-computed
radius formula of the zero-span viewport. -/
theorem generateGrid_uniform_radius_witness :
    gridPt0.radius = calculateRadius
      ((v0.northeast.lat - v0.southwest.lat) / (gridSizeClamp 1 : ℝ))
      ((v0.northeast.lng - v0.southwest.lng) / (gridSizeClamp 1 : ℝ))
      v0.southwest.lat :=
  (generateGrid_uniform_radius v0 1).1 gridPt0 gridPt0_mem

/-- Trace shape of one sector's pagination loop: the calls recorded are the
accumulator followed by the entry token and a tail of continuation tokens,
the loop makes at most max(1, maxPages - pageCount) further calls, and
every continuation call carries a provider token. -/
theorem sectorGo_trace (oracle : Option String → Except String GatewayResponse)
    (mp : Nat) :
    ∀ (fuel pc : Nat) (token : Option String) (acc : List String)
      (calls : List (Option String)), mp - pc ≤ fuel →
      ∃ tail : List (Option String),
        (sectorGo oracle mp token pc acc calls).1 = calls ++ token :: tail ∧
        tail.length + 1 ≤ max 1 (mp - pc) ∧
        ∀ t ∈ tail, t ≠ none := by
  intro fuel
  induction fuel with
  | zero =>
      intro pc token acc calls hf
      rw [sectorGo]
      cases ho : oracle token with
      | error e =>
          exact ⟨[], by simp, by simp, by simp⟩
      | ok resp =>
          cases hr : resp.nextPageToken with
          | none =>
              simp only [hr]
              exact ⟨[], by simp, by simp, by simp⟩
          | some t =>
              have hstop : ¬ (pc + 1 < mp) := by omega
              simp only [hr, if_neg hstop]
              exact ⟨[], by simp, by simp, by simp⟩
  | succ k ih =>
      intro pc token acc calls hf
      rw [sectorGo]
      cases ho : oracle token with
      | error e =>
          exact ⟨[], by simp, by simp, by simp⟩
      | ok resp =>
          cases hr : resp.nextPageToken with
          | none =>
              simp only [hr]
              exact ⟨[], by simp, by simp, by simp⟩
          | some t =>
              by_cases hgo : pc + 1 < mp
              · simp only [hr, if_pos hgo]
                obtain ⟨tail2, h1, h2, h3⟩ := ih (pc + 1) (some t)
                  (acc ++ resp.places) (calls ++ [token]) (by omega)
                refine ⟨some t :: tail2, ?_, ?_, ?_⟩
                · rw [h1]
                  simp
                · simp only [List.length_cons]
                  have hb : max 1 (mp - (pc + 1)) = mp - pc - 1 := by omega
                  rw [hb] at h2
                  omega
                · intro u hu
                  rcases List.mem_cons.1 hu with rfl | hu2
                  · simp
                  · exact h3 u hu2
              · simp only [hr, if_neg hgo]
                exact ⟨[], by simp, by simp, by simp⟩

/-- C6: scanCity runs one independent sector loop per grid point (the
oracle applied to that point carries its location-bias circle), each
sector's first call is the initial tokenless searchText request followed
only by token-carrying continuation fetches bounded by the per-sector page
budget, a sector whose loop raises contributes an empty list, and the
overall result is the flattening of the per-sector results in grid
order. -/
theorem scanCity_spec
    (oracle : GridPoint → Option String → Except String GatewayResponse)
    (v : Viewport) (gOpt : Option ℝ) (mpOpt : Option Nat) :
    (scanCity oracle v gOpt mpOpt =
      ((scanGridPoints v gOpt).map (fun p =>
        match (sectorRun (oracle p) (scanMaxPages mpOpt)).2 with
        | Except.ok l => l
        | Except.error _ => [])).flatten) ∧
    (∀ p : GridPoint,
      1 ≤ (sectorRun (oracle p) (scanMaxPages mpOpt)).1.length ∧
      (sectorRun (oracle p) (scanMaxPages mpOpt)).1.length ≤
        max 1 (scanMaxPages mpOpt) ∧
      (sectorRun (oracle p) (scanMaxPages mpOpt)).1[0]? = some none ∧
      (∀ k t, 1 ≤ k → (sectorRun (oracle p) (scanMaxPages mpOpt)).1[k]? = some t →
        t ≠ none)) ∧
    (∀ p e, (sectorRun (oracle p) (scanMaxPages mpOpt)).2 = Except.error e →
      (match (sectorRun (oracle p) (scanMaxPages mpOpt)).2 with
       | Except.ok l => l
       | Except.error _ => ([] : List String)) = []) := by
  refine ⟨rfl, ?_, ?_⟩
  · intro p
    obtain ⟨tail, h1, h2, h3⟩ := sectorGo_trace (oracle p) (scanMaxPages mpOpt)
      (scanMaxPages mpOpt) 0 none [] [] (by omega)
    have h1r : (sectorRun (oracle p) (scanMaxPages mpOpt)).1 = none :: tail := by
      simpa [sectorRun] using h1
    refine ⟨?_, ?_, ?_, ?_⟩
    · rw [h1r]
      simp
    · rw [h1r]
      simp only [List.length_cons]
      simpa using h2
    · rw [h1r]
      simp
    · intro k t hk hget
      rw [h1r] at hget
      obtain ⟨k2, rfl⟩ : ∃ k2, k = k2 + 1 := ⟨k - 1, by omega⟩
      rw [List.getElem?_cons_succ] at hget
      rcases List.getElem?_eq_some.1 hget with ⟨hlt, hval⟩
      exact hval ▸ h3 _ (List.getElem_mem hlt)
  · intro p e he
    rw [he]

/-- Witness for C6: a sector whose oracle always raises still records the
single initial tokenless call and contributes the empty list. -/
theorem scanCity_spec_witness :
    (sectorRun (failOracle gridPt0) (scanMaxPages none)).1[0]? = some none ∧
    (match (sectorRun (failOracle gridPt0) (scanMaxPages none)).2 with
     | Except.ok l => l
     | Except.error _ => ([] : List String)) = [] := by
  have h := scanCity_spec failOracle v0 none none
  refine ⟨(h.2.1 gridPt0).2.2.1, h.2.2 gridPt0 "sector down" ?_⟩
  rw [sectorRun, sectorGo]
  simp [failOracle]

/-- C2 counterexample: a first attempt that aborts on timeout is retried
immediately with the next credential but with no backoff sleep event in
the trace, while the claim demands an exponential backoff sleep before
every retry, including abort-triggered ones. -/
theorem searchText_abort_no_backoff_cex :
    (searchText abortOnce 2 0).1 = [TraceEv.call 0, TraceEv.call 1] ∧
    (∀ ms, TraceEv.slept ms ∉ (searchText abortOnce 2 0).1) ∧
    (searchText abortOnce 2 0).2 =
      Except.ok { places := [], nextPageToken := none } := by
  have h : searchText abortOnce 2 0 =
      ([TraceEv.call 0, TraceEv.call 1],
       Except.ok { places := [], nextPageToken := none }) := by
    simp [searchText, searchTextLoop, abortOnce]
  refine ⟨by rw [h], ?_, by rw [h]⟩
  intro ms
  rw [h]
  simp

/-- C2 amended: searchText makes at most 3 attempts, each attempt uses the
next credential in the round-robin pool; an attempt ending in a retryable
HTTP status (429/500/502/503/504) with attempts remaining is retried after
an exponential backoff sleep of min(1000 * 2 ^ attempt, 4000) ms, while a
request-timeout abort with attempts remaining is retried immediately with
no backoff sleep; any non-retryable outcome, or exhaustion of the attempt
budget, surfaces as the terminal result of the final attempt. -/
theorem searchText_retry_policy (oracle : Nat → AttemptOutcome) (n startIdx : Nat)
    (hs : startIdx < n) :
    searchText oracle n startIdx =
      (expectedTrace oracle n startIdx (retryCount oracle),
       terminalResult (oracle (retryCount oracle - 1))) ∧
    1 ≤ retryCount oracle ∧ retryCount oracle ≤ 3 ∧
    (∀ k, k + 1 < retryCount oracle → retryableOutcome (oracle k) = true) ∧
    (∀ k, k + 1 = retryCount oracle → retryCount oracle < 3 →
      retryableOutcome (oracle k) = false) := by
  have hmod0 : startIdx % n = startIdx := Nat.mod_eq_of_lt hs
  have hrg1 : List.range 1 = [0] := rfl
  have hrg2 : List.range 2 = [0, 1] := rfl
  have hrg3 : List.range 3 = [0, 1, 2] := rfl
  refine ⟨?_, ?_, ?_, ?_, ?_⟩
  · cases h0 : oracle 0 with
    | success r0 =>
        simp [searchText, searchTextLoop, h0, retryCount, retryableOutcome, expectedTrace, terminalResult,
          hrg1, hmod0]
    | otherError m0 =>
        simp [searchText, searchTextLoop, h0, retryCount, retryableOutcome, expectedTrace, terminalResult,
          hrg1, hmod0]
    | httpError st0 =>
        by_cases hst0 : st0 ∈ retryableStatuses
        · cases h1 : oracle 1 with
          | success r1 =>
              simp [searchText, searchTextLoop, h0, h1, hst0, retryCount,
                retryableOutcome, expectedTrace, terminalResult, hrg2, hmod0]
          | otherError m1 =>
              simp [searchText, searchTextLoop, h0, h1, hst0, retryCount,
                retryableOutcome, expectedTrace, terminalResult, hrg2, hmod0]
          | httpError st1 =>
              by_cases hst1 : st1 ∈ retryableStatuses
              · cases h2 : oracle 2 <;>
                  simp [searchText, searchTextLoop, h0, h1, h2, hst0, hst1,
                    retryCount, retryableOutcome, expectedTrace, terminalResult,
                    hrg3, hmod0, Nat.mod_add_mod, Nat.add_assoc]
              · simp [searchText, searchTextLoop, h0, h1, hst0, hst1, retryCount,
                  retryableOutcome, expectedTrace, terminalResult, hrg2, hmod0]
          | abortError =>
              cases h2 : oracle 2 <;>
                simp [searchText, searchTextLoop, h0, h1, h2, hst0, retryCount,
                  retryableOutcome, expectedTrace, terminalResult, hrg3, hmod0,
                  Nat.mod_add_mod, Nat.add_assoc]
        · simp [searchText, searchTextLoop, h0, hst0, retryCount,
            retryableOutcome, expectedTrace, terminalResult, hrg1, hmod0]
    | abortError =>
        cases h1 : oracle 1 with
        | success r1 =>
            simp [searchText, searchTextLoop, h0, h1, retryCount,
              retryableOutcome, expectedTrace, terminalResult, hrg2, hmod0]
        | otherError m1 =>
            simp [searchText, searchTextLoop, h0, h1, retryCount,
              retryableOutcome, expectedTrace, terminalResult, hrg2, hmod0]
        | httpError st1 =>
            by_cases hst1 : st1 ∈ retryableStatuses
            · cases h2 : oracle 2 <;>
                simp [searchText, searchTextLoop, h0, h1, h2, hst1, retryCount,
                  retryableOutcome, expectedTrace, terminalResult, hrg3, hmod0,
                  Nat.mod_add_mod, Nat.add_assoc]
            · simp [searchText, searchTextLoop, h0, h1, hst1, retryCount,
                retryableOutcome, expectedTrace, terminalResult, hrg2, hmod0]
        | abortError =>
            cases h2 : oracle 2 <;>
              simp [searchText, searchTextLoop, h0, h1, h2, retryCount,
                retryableOutcome, expectedTrace, terminalResult, hrg3, hmod0,
                Nat.mod_add_mod, Nat.add_assoc]
  · simp only [retryCount]
    split_ifs <;> norm_num
  · simp only [retryCount]
    split_ifs <;> norm_num
  · intro k hk
    simp only [retryCount] at hk
    by_cases hr0 : retryableOutcome (oracle 0) = true
    · by_cases hr1 : retryableOutcome (oracle 1) = true
      · rw [if_pos hr0, if_pos hr1] at hk
        have hk01 : k = 0 ∨ k = 1 := by omega
        rcases hk01 with rfl | rfl
        · exact hr0
        · exact hr1
      · rw [if_pos hr0, if_neg hr1] at hk
        have hk0 : k = 0 := by omega
        subst hk0
        exact hr0
    · rw [if_neg hr0] at hk
      omega
  · intro k hk hlt
    simp only [retryCount] at hk hlt
    by_cases hr0 : retryableOutcome (oracle 0) = true
    · by_cases hr1 : retryableOutcome (oracle 1) = true
      · rw [if_pos hr0, if_pos hr1] at hlt
        omega
      · rw [if_pos hr0, if_neg hr1] at hk
        have hk1 : k = 1 := by omega
        subst hk1
        simpa using hr1
    · rw [if_neg hr0] at hk
      have hk0 : k = 0 := by omega
      subst hk0
      simpa using hr0

/-- Witness for C2's amended theorem: a 429 then a success, over a pool of
two credentials, makes exactly two attempts. -/
theorem searchText_retry_policy_witness :
    searchText http429Once 2 0 =
      (expectedTrace http429Once 2 0 (retryCount http429Once),
       terminalResult (http429Once (retryCount http429Once - 1))) ∧
    retryCount http429Once = 2 := by
  have h := searchText_retry_policy http429Once 2 0 (by norm_num)
  exact ⟨h.1, by decide⟩

end Zakrom
